import Mathlib

/-!
# Registry client: re-tagging an image manifest

Shallow embedding of `internal/controller/utils/registry/client.go`.

The Go code talks to three libraries that are not part of the repository:
`net/http` (request construction and the round trip of `http.DefaultClient`),
`encoding/json` (`json.Unmarshal` into a `Manifest`) and `retry-go`
(`retry.Do`).  The first two are parameters of the model, gathered in `World`;
every theorem holds for all of their behaviours.  A Go `error` is a value of
`GoError`; `nil` is `none`.  A run-time panic is the `panicked` outcome.
Standard output (`fmt.Println`) is not part of the model.
-/

namespace Registry

/-- A Go `[]byte` value with its content spelled out. -/
abbrev Bytes := List UInt8

/-- The Go struct `Client`. -/
structure Client where
  Username : String
  Password : String
deriving DecidableEq, Repr

/-- The Go struct `Config`. -/
structure Config where
  MediaType : String
  Digest : String
  Size : Int
deriving DecidableEq, Repr

/-- The Go struct `Layer`. -/
structure Layer where
  MediaType : String
  Digest : String
  Size : Int
deriving DecidableEq, Repr

/-- The Go struct `Manifest`. -/
structure Manifest where
  SchemaVersion : Int
  MediaType : String
  Config : Config
  Layers : List Layer
deriving DecidableEq, Repr

/-- Go `error` values that the client can hold.  The two package-level
sentinels are constructors of their own: `errors.New` returns a fresh pointer
on each call, so an error built from a status text is never identical to a
sentinel, whatever its text.  Errors coming out of the libraries are kept
apart by origin. -/
inductive GoError where
  | ErrorManifestNotFound
  | ErrorMediaTypeInvalid
  | errorsNew (text : String)
  | newRequest (text : String)
  | clientDo (text : String)
  | jsonUnmarshal (text : String)
deriving DecidableEq, Repr

/-- The method `Error()` of a non-nil error. -/
def GoError.Error : GoError → String
  | .ErrorManifestNotFound => "manifest not found"
  | .ErrorMediaTypeInvalid => "media type invalid"
  | .errorsNew text => text
  | .newRequest text => text
  | .clientDo text => text
  | .jsonUnmarshal text => text

/-- How a Go call ends: it returns a value, or the goroutine panics. -/
inductive Outcome (α : Type) where
  | returned (value : α)
  | panicked (text : String)
deriving DecidableEq, Repr

/-- The text of the run-time panic raised by a method call on a nil interface. -/
def nilDereference : String :=
  "runtime error: invalid memory address or nil pointer dereference"

/-- The expression `err.Error()` for an `err` that may be nil. -/
def errorString : Option GoError → Outcome String
  | none => .panicked nilDereference
  | some e => .returned e.Error

/-- An `*http.Request` as the client builds it.  `BasicAuth` is what
`SetBasicAuth` stored; `Body` is `none` for a request built with a nil body. -/
structure Request where
  Method : String
  URL : String
  BasicAuth : Option (String × String)
  Header : List (String × String)
  Body : Option Bytes
deriving DecidableEq, Repr

/-- An `*http.Response` as the client reads it.  `Body` and `BodyErr` are the
two results of `io.ReadAll(resp.Body)`: the bytes that were read and the read
error, if any. -/
structure Response where
  StatusCode : Int
  Status : String
  Body : Bytes
  BodyErr : Option String
deriving DecidableEq, Repr

/-- The two results of `client.Do(req)`. -/
inductive DoResult where
  | response (resp : Response)
  | failure (text : String)
deriving DecidableEq, Repr

/-- The `err` result of `client.Do(req)`. -/
def DoResult.err : DoResult → Option GoError
  | .response _ => none
  | .failure text => some (.clientDo text)

/-- One round trip: the request sent and what came back. -/
structure Exchange where
  req : Request
  res : DoResult
deriving DecidableEq, Repr

/-- The libraries the client calls, over a transport state `σ`. -/
structure World (σ : Type) where
  /-- The error of `http.NewRequest(method, url, body)`, `none` when the
  request is built. -/
  newRequestErr : String → String → Option String
  /-- The call `http.DefaultClient.Do(req)`: its result and the next state of
  the registry and network. -/
  roundTrip : σ → Request → DoResult × σ
  /-- The call `json.Unmarshal(body, &manifest)` on a zero-valued `Manifest`:
  the decoded manifest or the error text.  A field absent from the JSON
  keeps its zero value, so an absent `mediaType` decodes to `""`. -/
  unmarshal : Bytes → Except String Manifest

/-- Program state: the transport state and the exchanges made so far. -/
structure St (σ : Type) where
  transport : σ
  log : List Exchange

/-- The state in which nothing has been sent yet. -/
def St.init {σ : Type} (t : σ) : St σ := { transport := t, log := [] }

/-- The predicate `validHeaderFieldByte` of `net/textproto`: the token
characters of RFC 7230. -/
def validHeaderFieldByte (c : Char) : Bool :=
  c.isAlphanum || [33, 35, 36, 37, 38, 39, 42, 43, 45, 46, 94, 95, 96, 124, 126].contains c.toNat

/-- The canonicalising loop of `textproto.CanonicalMIMEHeaderKey`: upper case
for the first letter and after each dash, lower case elsewhere. -/
def canonicalLoop : Bool → List Char → List Char
  | _, [] => []
  | upper, c :: cs =>
    let d := if upper && c.isLower then c.toUpper
             else if !upper && c.isUpper then c.toLower
             else c
    d :: canonicalLoop (d == '-') cs

/-- The function `textproto.CanonicalMIMEHeaderKey`: a key with a character
that is neither a token character nor a space, or with a space, is left
unchanged. -/
def canonicalMIMEHeaderKey (key : String) : String :=
  if key.data.all validHeaderFieldByte then String.mk (canonicalLoop true key.data)
  else key

/-- The method `Header.Set(key, value)`: the value replaces any earlier one
under the canonical form of the key. -/
def headerSet (h : List (String × String)) (key value : String) : List (String × String) :=
  let k := canonicalMIMEHeaderKey key
  (h.filter fun kv => kv.1 != k) ++ [(k, value)]

/-- The request that `http.NewRequest(method, url, body)` builds. -/
def newRequest (method url : String) (body : Option Bytes) : Request :=
  { Method := method, URL := url, BasicAuth := none, Header := [], Body := body }

/-- The method `req.SetBasicAuth(username, password)`. -/
def Request.SetBasicAuth (req : Request) (username password : String) : Request :=
  { req with BasicAuth := some (username, password) }

/-- The statement `req.Header.Set(key, value)`. -/
def Request.HeaderSet (req : Request) (key value : String) : Request :=
  { req with Header := headerSet req.Header key value }

/-- The call `client.Do(req)`, recorded in the log. -/
def clientDo {σ : Type} (w : World σ) (s : St σ) (req : Request) : DoResult × St σ :=
  let r := w.roundTrip s.transport req
  (r.1, { transport := r.2, log := s.log ++ [{ req := req, res := r.1 }] })

/-- The URL both requests are sent to. -/
def manifestURL (hostName imageName tag : String) : String :=
  "http://" ++ hostName ++ "/v2/" ++ imageName ++ "/manifests/" ++ tag

/-- The value of the `Accept` header of the fetch. -/
def acceptValue : String :=
  "application/vnd.oci.image.manifest.v1+json, application/vnd.docker.distribution.manifest.v2+json"

/-- The request `pullManifest` builds: `http.NewRequest("GET", url, nil)`, then
`SetBasicAuth` and the `Accept` header. -/
def pullRequest (username password url : String) : Request :=
  ((newRequest "GET" url none).SetBasicAuth username password).HeaderSet "Accept" acceptValue

/-- The request `pushManifest` builds:
`http.NewRequest("PUT", url, bytes.NewBuffer(manifest))`, then `SetBasicAuth`
and `req.Header.Set("Content-type", mediaType)`. -/
def pushRequest (username password url : String) (manifest : Bytes) (mediaType : String) :
    Request :=
  ((newRequest "PUT" url (some manifest)).SetBasicAuth username password).HeaderSet
    "Content-type" mediaType

/-- The method `Client.pullManifest`.  The first component of the result is
the returned byte slice, `none` for a nil slice. -/
def pullManifest {σ : Type} (w : World σ) (s : St σ)
    (username password hostName imageName tag : String) :
    (Option Bytes × String × Option GoError) × St σ :=
  let url := manifestURL hostName imageName tag
  match w.newRequestErr "GET" url with
  | some e => ((none, "", some (.newRequest e)), s)
  | none =>
    match clientDo w s (pullRequest username password url) with
    | (.failure e, s1) => ((none, "", some (.clientDo e)), s1)
    | (.response resp, s1) =>
      if resp.StatusCode = 404 then ((none, "", some .ErrorManifestNotFound), s1)
      else if resp.StatusCode ≠ 200 then ((none, "", some (.errorsNew resp.Status)), s1)
      else
        -- bodyText, err := io.ReadAll(resp.Body); err is assigned again below
        let bodyText := resp.Body
        match w.unmarshal bodyText with
        | .error e => ((none, "", some (.jsonUnmarshal e)), s1)
        | .ok manifest =>
          if manifest.MediaType.utf8ByteSize = 0 then
            ((none, "", some .ErrorMediaTypeInvalid), s1)
          else ((some bodyText, manifest.MediaType, none), s1)

/-- The method `Client.pushManifest`.  After the status check the variable
`err` still holds the error result of `client.Do`, and the last print
statement calls `err.Error()` on it. -/
def pushManifest {σ : Type} (w : World σ) (s : St σ)
    (username password hostName imageName tag : String) (manifest : Bytes)
    (mediaType : String) : Outcome (Option GoError) × St σ :=
  let url := manifestURL hostName imageName tag
  match w.newRequestErr "PUT" url with
  | some e => (.returned (some (.newRequest e)), s)
  | none =>
    let r := clientDo w s (pushRequest username password url manifest mediaType)
    let err := r.1.err
    match r.1 with
    | .failure _ => (.returned err, r.2)
    | .response resp =>
      if resp.StatusCode ≠ 201 then (.returned (some (.errorsNew resp.Status)), r.2)
      else
        match errorString err with
        | .panicked text => (.panicked text, r.2)
        | .returned _ => (.returned none, r.2)

/-- The content of a byte slice; a nil slice has no bytes. -/
def sliceContent : Option Bytes → Bytes
  | none => []
  | some b => b

/-- The function literal that `TagImage` hands to `retry.Do`: one run of the
fetch-then-publish pipeline. -/
def tagAttempt {σ : Type} (w : World σ) (t : Client)
    (hostName imageName oldTag newTag : String) (s : St σ) :
    Outcome (Option GoError) × St σ :=
  let r := pullManifest w s t.Username t.Password hostName imageName oldTag
  match r.1.2.2 with
  | some e => (.returned (some e), r.2)
  | none =>
    pushManifest w r.2 t.Username t.Password hostName imageName newTag
      (sliceContent r.1.1) r.1.2.1

/-- Modelled from the spec: the loop of `retry.Do`, which is not under the
source tree.  `remaining` attempts are left and `last` is the error of the
latest failed attempt: a nil result ends the loop with success, an error is
kept as the last error and the next attempt starts, and the last error is
returned once no attempt is left.  A panic of the attempt is not recovered. -/
def retryLoop {S : Type} (f : S → Outcome (Option GoError) × S) :
    Nat → Option GoError → S → Outcome (Option GoError) × S
  | 0, last, s => (.returned last, s)
  | remaining + 1, _, s =>
    match f s with
    | (.panicked text, s1) => (.panicked text, s1)
    | (.returned none, s1) => (.returned none, s1)
    | (.returned (some e), s1) => retryLoop f remaining (some e) s1

/-- Modelled from the spec: `retry.Do` of the retry library, which is not under
the source tree, with the options `Attempts(attempts)` and
`LastErrorOnly(true)`: "The whole pipeline is retried as a unit (not per-step)
up to a fixed attempt bound with a fixed delay between attempts; only the last
error is surfaced to the caller."  The delay is real time and is left out. -/
def retryDo {S : Type} (attempts : Nat) (f : S → Outcome (Option GoError) × S) (s : S) :
    Outcome (Option GoError) × S :=
  retryLoop f attempts none s

/-- The method `Client.TagImage`. -/
def TagImage {σ : Type} (w : World σ) (t : Client) (s : St σ)
    (hostName imageName oldTag newTag : String) : Outcome (Option GoError) × St σ :=
  retryDo 3 (tagAttempt w t hostName imageName oldTag newTag) s

/-- What `pullManifest` returns once the GET is answered with status 200: a
function of the bytes read alone. -/
def decodeOutcome {σ : Type} (w : World σ) (body : Bytes) :
    Option Bytes × String × Option GoError :=
  match w.unmarshal body with
  | .error e => (none, "", some (.jsonUnmarshal e))
  | .ok manifest =>
    if manifest.MediaType = "" then (none, "", some .ErrorMediaTypeInvalid)
    else (some body, manifest.MediaType, none)

/-- The number of GET requests in a log. -/
def fetchCount (log : List Exchange) : Nat :=
  log.countP fun x => x.req.Method == "GET"

/-- A log in which every PUT comes right after the GET of a successful fetch
and republishes what that fetch returned: same host, repository and
credentials, the destination tag, the body of the GET response, and its
decoded media type as content type. -/
def PublishFollowsFetch {σ : Type} (w : World σ) (t : Client)
    (hostName imageName oldTag newTag : String) (log : List Exchange) : Prop :=
  ∀ i p, log[i]? = some p → p.req.Method = "PUT" →
    ∃ g resp m, 0 < i ∧ log[i - 1]? = some g ∧
      g.req.Method = "GET" ∧
      g.req.URL = "http://" ++ hostName ++ "/v2/" ++ imageName ++ "/manifests/" ++ oldTag ∧
      g.req.BasicAuth = some (t.Username, t.Password) ∧
      g.res = .response resp ∧ resp.StatusCode = 200 ∧
      w.unmarshal resp.Body = .ok m ∧ m.MediaType ≠ "" ∧
      p.req.URL = "http://" ++ hostName ++ "/v2/" ++ imageName ++ "/manifests/" ++ newTag ∧
      p.req.Body = some resp.Body ∧
      p.req.Header = [("Content-Type", m.MediaType)] ∧
      p.req.BasicAuth = some (t.Username, t.Password)

/-! ## Concrete registries, used to evaluate the client -/

/-- The bytes of the JSON text with the single member `"mediaType":"m"`. -/
def demoBody : Bytes :=
  [123, 34, 109, 101, 100, 105, 97, 84, 121, 112, 101, 34, 58, 34, 109, 34, 125]

/-- The bytes of the empty JSON object. -/
def emptyObjectBody : Bytes := [123, 125]

/-- The zero value of `Manifest`. -/
def zeroManifest : Manifest :=
  { SchemaVersion := 0, MediaType := "", Config := { MediaType := "", Digest := "", Size := 0 },
    Layers := [] }

/-- The bytes of the JSON object with the single member `"schemaVersion":"2"`:
well-formed JSON with no `mediaType` member, whose `schemaVersion` is a string
where the Go field `SchemaVersion` is an `int`. -/
def stringVersionBody : Bytes :=
  [123, 34, 115, 99, 104, 101, 109, 97, 86, 101, 114, 115, 105, 111, 110, 34, 58, 34, 50, 34,
   125]

/-- The error text of `json.Unmarshal` on `stringVersionBody`. -/
def stringVersionError : String :=
  "json: cannot unmarshal string into Go struct field Manifest.schemaVersion of type int"

/-- A decoder that agrees with `json.Unmarshal` on `demoBody`, on
`emptyObjectBody` and on `stringVersionBody` (a type error) and rejects every
other body. -/
def demoUnmarshal (body : Bytes) : Except String Manifest :=
  if body = demoBody then .ok { zeroManifest with MediaType := "m" }
  else if body = emptyObjectBody then .ok zeroManifest
  else if body = stringVersionBody then .error stringVersionError
  else .error "unexpected end of JSON input"

/-- A response with the given status and body, read without error. -/
def demoResponse (code : Int) (status : String) (body : Bytes) : DoResult :=
  .response { StatusCode := code, Status := status, Body := body, BodyErr := none }

/-- A registry that gives one fixed answer to every GET and one to every
other request. -/
def fixedWorld (getAnswer putAnswer : DoResult) : World Unit where
  newRequestErr := fun _ _ => none
  roundTrip := fun t req => (if req.Method = "GET" then getAnswer else putAnswer, t)
  unmarshal := demoUnmarshal

/-- A 200 response that delivers all of `demoBody` and then a read error. -/
def truncatedResponse : Response :=
  { StatusCode := 200, Status := "200 OK", Body := demoBody, BodyErr := some "unexpected EOF" }

/-- A fault-injected transport: the state is the list of answers still to be
given, one per request; once it is used up every request fails. -/
def scriptedWorld : World (List DoResult) where
  newRequestErr := fun _ _ => none
  roundTrip := fun t _ =>
    match t with
    | [] => (.failure "connection refused", [])
    | r :: rest => (r, rest)
  unmarshal := demoUnmarshal

/-- A script for `scriptedWorld`: the first attempt fails at the fetch (the
transport fails), the second at the publish (status 500), and the third has
its fetch answered 200 with a manifest and its publish answered 201. -/
def twoFaultsThenCreated : List DoResult :=
  [.failure "timeout",
   demoResponse 200 "200 OK" demoBody, demoResponse 500 "500 Internal Server Error" [],
   demoResponse 200 "200 OK" demoBody, demoResponse 201 "201 Created" []]

/-- A script for `scriptedWorld` with three failing attempts of three kinds: a
transport failure at the fetch, a 404 at the fetch, a 403 at the publish. -/
def threeFaults : List DoResult :=
  [.failure "timeout",
   demoResponse 404 "404 Not Found" [],
   demoResponse 200 "200 OK" demoBody, demoResponse 403 "403 Forbidden" []]

/-- A registry that serves the manifest `demoBody` to every GET and answers
every PUT with `403 Forbidden`. -/
def forbiddenWorld : World Unit :=
  fixedWorld (demoResponse 200 "200 OK" demoBody) (demoResponse 403 "403 Forbidden" [])

/-- The PUT exchange of each attempt against `forbiddenWorld`. -/
def forbiddenPublish : Exchange :=
  { req := pushRequest "admin" "secret" "http://registry.local/v2/app/manifests/v2" demoBody "m",
    res := demoResponse 403 "403 Forbidden" [] }

/-- The credentials used in the concrete runs. -/
def demoClient : Client := { Username := "admin", Password := "secret" }

/-! ## Basic facts -/

theorem utf8ByteSize_eq_zero_iff (s : String) : s.utf8ByteSize = 0 ↔ s = "" := by
  cases s with
  | mk cs =>
    cases cs with
    | nil => simp [String.utf8ByteSize, String.utf8ByteSize.go]
    | cons c cs =>
      have hpos := c.utf8Size_pos
      have hne : (String.mk (c :: cs)) ≠ "" := by
        intro h
        have := congrArg String.data h
        simp at this
      simp only [String.utf8ByteSize, String.utf8ByteSize.go, hne, iff_false]
      omega

theorem canonical_content_type : canonicalMIMEHeaderKey "Content-type" = "Content-Type" := by
  decide

theorem canonical_accept : canonicalMIMEHeaderKey "Accept" = "Accept" := by
  decide

theorem pushRequest_eq (username password url : String) (manifest : Bytes)
    (mediaType : String) :
    pushRequest username password url manifest mediaType =
      { Method := "PUT", URL := url, BasicAuth := some (username, password),
        Header := [("Content-Type", mediaType)], Body := some manifest } := by
  simp [pushRequest, newRequest, Request.SetBasicAuth, Request.HeaderSet, headerSet,
    canonical_content_type]

theorem pullRequest_eq (username password url : String) :
    pullRequest username password url =
      { Method := "GET", URL := url, BasicAuth := some (username, password),
        Header := [("Accept", acceptValue)], Body := none } := by
  simp [pullRequest, newRequest, Request.SetBasicAuth, Request.HeaderSet, headerSet,
    canonical_accept]

/-! ## The fetch -/

theorem pullManifest_newRequest_failed {σ : Type} (w : World σ) (s : St σ)
    (username password hostName imageName tag e : String)
    (hurl : w.newRequestErr "GET" (manifestURL hostName imageName tag) = some e) :
    pullManifest w s username password hostName imageName tag =
      ((none, "", some (.newRequest e)), s) := by
  simp [pullManifest, hurl]

theorem pullManifest_failure {σ : Type} (w : World σ) (s : St σ)
    (username password hostName imageName tag e : String) (t1 : σ)
    (hurl : w.newRequestErr "GET" (manifestURL hostName imageName tag) = none)
    (hdo : w.roundTrip s.transport
      (pullRequest username password (manifestURL hostName imageName tag)) = (.failure e, t1)) :
    pullManifest w s username password hostName imageName tag =
      ((none, "", some (.clientDo e)),
        { transport := t1, log := s.log ++
          [{ req := pullRequest username password (manifestURL hostName imageName tag),
             res := .failure e }] }) := by
  simp [pullManifest, hurl, clientDo, hdo]

theorem pullManifest_response {σ : Type} (w : World σ) (s : St σ)
    (username password hostName imageName tag : String) (resp : Response) (t1 : σ)
    (hurl : w.newRequestErr "GET" (manifestURL hostName imageName tag) = none)
    (hdo : w.roundTrip s.transport
      (pullRequest username password (manifestURL hostName imageName tag)) =
        (.response resp, t1)) :
    pullManifest w s username password hostName imageName tag =
      (if resp.StatusCode = 404 then (none, "", some .ErrorManifestNotFound)
       else if resp.StatusCode ≠ 200 then (none, "", some (.errorsNew resp.Status))
       else decodeOutcome w resp.Body,
        { transport := t1, log := s.log ++
          [{ req := pullRequest username password (manifestURL hostName imageName tag),
             res := .response resp }] }) := by
  simp only [pullManifest, hurl, clientDo, hdo, decodeOutcome, utf8ByteSize_eq_zero_iff]
  split_ifs <;> try rfl
  all_goals (cases w.unmarshal resp.Body <;> simp; split_ifs <;> rfl)

/-! ## The publish -/

theorem pushManifest_newRequest_failed {σ : Type} (w : World σ) (s : St σ)
    (username password hostName imageName tag : String) (manifest : Bytes)
    (mediaType e : String)
    (hurl : w.newRequestErr "PUT" (manifestURL hostName imageName tag) = some e) :
    pushManifest w s username password hostName imageName tag manifest mediaType =
      (.returned (some (.newRequest e)), s) := by
  simp [pushManifest, hurl]

theorem pushManifest_failure {σ : Type} (w : World σ) (s : St σ)
    (username password hostName imageName tag : String) (manifest : Bytes)
    (mediaType e : String) (t1 : σ)
    (hurl : w.newRequestErr "PUT" (manifestURL hostName imageName tag) = none)
    (hdo : w.roundTrip s.transport
      (pushRequest username password (manifestURL hostName imageName tag) manifest mediaType) =
        (.failure e, t1)) :
    pushManifest w s username password hostName imageName tag manifest mediaType =
      (.returned (some (.clientDo e)),
        { transport := t1, log := s.log ++
          [{ req := pushRequest username password (manifestURL hostName imageName tag)
               manifest mediaType,
             res := .failure e }] }) := by
  simp [pushManifest, hurl, clientDo, hdo, DoResult.err]

theorem pushManifest_response {σ : Type} (w : World σ) (s : St σ)
    (username password hostName imageName tag : String) (manifest : Bytes)
    (mediaType : String) (resp : Response) (t1 : σ)
    (hurl : w.newRequestErr "PUT" (manifestURL hostName imageName tag) = none)
    (hdo : w.roundTrip s.transport
      (pushRequest username password (manifestURL hostName imageName tag) manifest mediaType) =
        (.response resp, t1)) :
    pushManifest w s username password hostName imageName tag manifest mediaType =
      (if resp.StatusCode ≠ 201 then .returned (some (.errorsNew resp.Status))
       else .panicked nilDereference,
        { transport := t1, log := s.log ++
          [{ req := pushRequest username password (manifestURL hostName imageName tag)
               manifest mediaType,
             res := .response resp }] }) := by
  simp only [pushManifest, hurl, clientDo, hdo, DoResult.err, errorString]
  split_ifs <;> rfl

/-- The publish never returns a nil error: it returns an error or panics. -/
theorem pushManifest_never_nil {σ : Type} (w : World σ) (s : St σ)
    (username password hostName imageName tag : String) (manifest : Bytes)
    (mediaType : String) :
    (pushManifest w s username password hostName imageName tag manifest mediaType).1 ≠
      .returned none := by
  cases hurl : w.newRequestErr "PUT" (manifestURL hostName imageName tag) with
  | some e => simp [pushManifest_newRequest_failed w s _ _ _ _ _ _ _ e hurl]
  | none =>
    rcases hdo : w.roundTrip s.transport
      (pushRequest username password (manifestURL hostName imageName tag) manifest mediaType)
      with ⟨res, t1⟩
    cases res with
    | failure e => simp [pushManifest_failure w s _ _ _ _ _ _ _ e t1 hurl hdo]
    | response resp =>
      rw [pushManifest_response w s _ _ _ _ _ _ _ resp t1 hurl hdo]
      simp only
      split_ifs <;> simp

/-! ## One attempt and the retry loop -/

theorem tagAttempt_of_fetch_error {σ : Type} (w : World σ) (t : Client) (s s1 : St σ)
    (hostName imageName oldTag newTag : String) (b : Option Bytes) (mt : String) (e : GoError)
    (hpull : pullManifest w s t.Username t.Password hostName imageName oldTag =
      ((b, mt, some e), s1)) :
    tagAttempt w t hostName imageName oldTag newTag s = (.returned (some e), s1) := by
  simp [tagAttempt, hpull]

theorem tagAttempt_of_fetch_ok {σ : Type} (w : World σ) (t : Client) (s s1 : St σ)
    (hostName imageName oldTag newTag : String) (b : Option Bytes) (mt : String)
    (hpull : pullManifest w s t.Username t.Password hostName imageName oldTag =
      ((b, mt, none), s1)) :
    tagAttempt w t hostName imageName oldTag newTag s =
      pushManifest w s1 t.Username t.Password hostName imageName newTag (sliceContent b) mt := by
  simp [tagAttempt, hpull]

/-- An attempt never returns a nil error. -/
theorem tagAttempt_never_nil {σ : Type} (w : World σ) (t : Client) (s : St σ)
    (hostName imageName oldTag newTag : String) :
    (tagAttempt w t hostName imageName oldTag newTag s).1 ≠ .returned none := by
  rcases hpull : pullManifest w s t.Username t.Password hostName imageName oldTag
    with ⟨⟨b, mt, err⟩, s1⟩
  cases err with
  | some e => simp [tagAttempt_of_fetch_error w t s s1 _ _ _ _ b mt e hpull]
  | none =>
    rw [tagAttempt_of_fetch_ok w t s s1 _ _ _ _ b mt hpull]
    exact pushManifest_never_nil _ _ _ _ _ _ _ _ _

theorem retryLoop_failed {S : Type} (f : S → Outcome (Option GoError) × S) (n : Nat)
    (last : Option GoError) (s s1 : S) (e : GoError)
    (h : f s = (.returned (some e), s1)) :
    retryLoop f (n + 1) last s = retryLoop f n (some e) s1 := by
  simp [retryLoop, h]

theorem retryLoop_panicked {S : Type} (f : S → Outcome (Option GoError) × S) (n : Nat)
    (last : Option GoError) (s s1 : S) (text : String)
    (h : f s = (.panicked text, s1)) :
    retryLoop f (n + 1) last s = (.panicked text, s1) := by
  simp [retryLoop, h]

/-- Three failed attempts in a row: `TagImage` stops there and returns the
third error. -/
theorem TagImage_of_three_failures {σ : Type} (w : World σ) (t : Client)
    (hostName imageName oldTag newTag : String) (s0 s1 s2 s3 : St σ) (e1 e2 e3 : GoError)
    (h1 : tagAttempt w t hostName imageName oldTag newTag s0 = (.returned (some e1), s1))
    (h2 : tagAttempt w t hostName imageName oldTag newTag s1 = (.returned (some e2), s2))
    (h3 : tagAttempt w t hostName imageName oldTag newTag s2 = (.returned (some e3), s3)) :
    TagImage w t s0 hostName imageName oldTag newTag = (.returned (some e3), s3) := by
  unfold TagImage retryDo
  rw [retryLoop_failed _ _ _ _ _ _ h1, retryLoop_failed _ _ _ _ _ _ h2,
    retryLoop_failed _ _ _ _ _ _ h3]
  rfl

/-- Two failed attempts and a panic in the third: `TagImage` panics. -/
theorem TagImage_of_third_panic {σ : Type} (w : World σ) (t : Client)
    (hostName imageName oldTag newTag : String) (s0 s1 s2 s3 : St σ) (e1 e2 : GoError)
    (text : String)
    (h1 : tagAttempt w t hostName imageName oldTag newTag s0 = (.returned (some e1), s1))
    (h2 : tagAttempt w t hostName imageName oldTag newTag s1 = (.returned (some e2), s2))
    (h3 : tagAttempt w t hostName imageName oldTag newTag s2 = (.panicked text, s3)) :
    TagImage w t s0 hostName imageName oldTag newTag = (.panicked text, s3) := by
  unfold TagImage retryDo
  rw [retryLoop_failed _ _ _ _ _ _ h1, retryLoop_failed _ _ _ _ _ _ h2,
    retryLoop_panicked _ _ _ _ _ _ h3]

/-- The loop never turns attempts that cannot return nil into a nil result,
unless it makes no attempt at all. -/
theorem retryLoop_never_nil {S : Type} (f : S → Outcome (Option GoError) × S)
    (hf : ∀ s, (f s).1 ≠ .returned none) (n : Nat) (e : GoError) (s : S) :
    (retryLoop f n (some e) s).1 ≠ .returned none := by
  induction n generalizing e s with
  | zero => simp [retryLoop]
  | succ n ih =>
    rcases h : f s with ⟨out, s1⟩
    cases out with
    | panicked text => simp [retryLoop, h]
    | returned r =>
      cases r with
      | none => exact absurd (by rw [h]) (hf s)
      | some e1 =>
        rw [retryLoop_failed f n _ s s1 e1 h]
        exact ih e1 s1

/-- The call `TagImage` never returns a nil error: every run ends with an
error or with a panic. -/
theorem TagImage_never_nil {σ : Type} (w : World σ) (t : Client) (s : St σ)
    (hostName imageName oldTag newTag : String) :
    (TagImage w t s hostName imageName oldTag newTag).1 ≠ .returned none := by
  unfold TagImage retryDo
  rcases h : tagAttempt w t hostName imageName oldTag newTag s with ⟨out, s1⟩
  have hf := fun s => tagAttempt_never_nil w t s hostName imageName oldTag newTag
  cases out with
  | panicked text => simp [retryLoop, h]
  | returned r =>
    cases r with
    | none => exact absurd (by rw [h]) (hf s)
    | some e1 =>
      rw [retryLoop_failed _ 2 _ s s1 e1 h]
      exact retryLoop_never_nil _ hf 2 e1 s1

/-! ## What one attempt sends -/

/-- Once the GET request is built, the fetch sends exactly that request, and
it succeeds only on a 200 response whose body decodes to a manifest with a
non-empty media type. -/
theorem pullManifest_sent {σ : Type} (w : World σ) (s : St σ)
    (username password hostName imageName tag : String)
    (hurl : w.newRequestErr "GET" (manifestURL hostName imageName tag) = none) :
    (pullManifest w s username password hostName imageName tag).2 =
        { transport :=
            (w.roundTrip s.transport
              (pullRequest username password (manifestURL hostName imageName tag))).2,
          log := s.log ++
            [{ req := pullRequest username password (manifestURL hostName imageName tag),
               res := (w.roundTrip s.transport
                 (pullRequest username password (manifestURL hostName imageName tag))).1 }] } ∧
      ((pullManifest w s username password hostName imageName tag).1.2.2 = none →
        ∃ resp m,
          (w.roundTrip s.transport
            (pullRequest username password (manifestURL hostName imageName tag))).1 =
              .response resp ∧
          resp.StatusCode = 200 ∧ w.unmarshal resp.Body = .ok m ∧ m.MediaType ≠ "" ∧
          (pullManifest w s username password hostName imageName tag).1 =
            (some resp.Body, m.MediaType, none)) := by
  rcases hdo : w.roundTrip s.transport
    (pullRequest username password (manifestURL hostName imageName tag)) with ⟨res, t1⟩
  cases res with
  | failure e =>
    rw [pullManifest_failure w s _ _ _ _ _ e t1 hurl hdo]
    simp
  | response resp =>
    rw [pullManifest_response w s _ _ _ _ _ resp t1 hurl hdo]
    refine ⟨rfl, ?_⟩
    by_cases h404 : resp.StatusCode = 404
    · simp [h404]
    · by_cases h200 : resp.StatusCode = 200
      · simp only [h404, h200, if_false, ne_eq, not_true_eq_false, decodeOutcome]
        cases hparse : w.unmarshal resp.Body with
        | error e => simp
        | ok m =>
          by_cases hm : m.MediaType = ""
          · simp [hm]
          · intro _
            exact ⟨resp, m, rfl, h200, hparse, hm, by simp [hm]⟩
      · simp [h404, h200]

/-- Once the PUT request is built, the publish sends exactly that request. -/
theorem pushManifest_sent {σ : Type} (w : World σ) (s : St σ)
    (username password hostName imageName tag : String) (manifest : Bytes)
    (mediaType : String)
    (hurl : w.newRequestErr "PUT" (manifestURL hostName imageName tag) = none) :
    (pushManifest w s username password hostName imageName tag manifest mediaType).2 =
      { transport :=
          (w.roundTrip s.transport
            (pushRequest username password (manifestURL hostName imageName tag)
              manifest mediaType)).2,
        log := s.log ++
          [{ req := pushRequest username password (manifestURL hostName imageName tag)
               manifest mediaType,
             res := (w.roundTrip s.transport
               (pushRequest username password (manifestURL hostName imageName tag)
                 manifest mediaType)).1 }] } := by
  rcases hdo : w.roundTrip s.transport
    (pushRequest username password (manifestURL hostName imageName tag) manifest mediaType)
    with ⟨res, t1⟩
  cases res with
  | failure e => rw [pushManifest_failure w s _ _ _ _ _ _ _ e t1 hurl hdo]
  | response resp => rw [pushManifest_response w s _ _ _ _ _ _ _ resp t1 hurl hdo]

/-- The log of one attempt whose GET request is built: the GET alone, or the
GET of a successful fetch followed by the PUT that republishes its body. -/
theorem tagAttempt_log {σ : Type} (w : World σ) (t : Client) (s : St σ)
    (hostName imageName oldTag newTag : String)
    (hurl : w.newRequestErr "GET" (manifestURL hostName imageName oldTag) = none) :
    ∃ res,
      ((tagAttempt w t hostName imageName oldTag newTag s).2.log = s.log ++
          [{ req := pullRequest t.Username t.Password (manifestURL hostName imageName oldTag),
             res := res }]) ∨
      ∃ resp m res2, res = .response resp ∧ resp.StatusCode = 200 ∧
        w.unmarshal resp.Body = .ok m ∧ m.MediaType ≠ "" ∧
        (tagAttempt w t hostName imageName oldTag newTag s).2.log = s.log ++
          [{ req := pullRequest t.Username t.Password (manifestURL hostName imageName oldTag),
             res := res },
           { req := pushRequest t.Username t.Password (manifestURL hostName imageName newTag)
               resp.Body m.MediaType,
             res := res2 }] := by
  obtain ⟨hst, hok⟩ := pullManifest_sent w s t.Username t.Password hostName imageName oldTag hurl
  rcases hpull : pullManifest w s t.Username t.Password hostName imageName oldTag
    with ⟨⟨b, mt, err⟩, s1⟩
  rw [hpull] at hst hok
  simp only at hst hok
  refine ⟨(w.roundTrip s.transport
    (pullRequest t.Username t.Password (manifestURL hostName imageName oldTag))).1, ?_⟩
  cases err with
  | some e =>
    left
    rw [tagAttempt_of_fetch_error w t s s1 _ _ _ _ b mt e hpull, hst]
  | none =>
    obtain ⟨resp, m, hres, hcode, hparse, hm, hval⟩ := hok rfl
    rw [tagAttempt_of_fetch_ok w t s s1 _ _ _ _ b mt hpull]
    cases hput : w.newRequestErr "PUT" (manifestURL hostName imageName newTag) with
    | some e =>
      left
      rw [pushManifest_newRequest_failed w s1 _ _ _ _ _ _ _ e hput, hst]
    | none =>
      right
      simp only [Prod.mk.injEq] at hval
      obtain ⟨hb, hmt, _⟩ := hval
      subst hb hmt
      refine ⟨resp, m, (w.roundTrip s1.transport
        (pushRequest t.Username t.Password (manifestURL hostName imageName newTag)
          resp.Body m.MediaType)).1, hres, hcode, hparse, hm, ?_⟩
      rw [pushManifest_sent w s1 _ _ _ _ _ _ _ hput]
      simp [hst, sliceContent]

theorem tagAttempt_fetchCount {σ : Type} (w : World σ) (t : Client) (s : St σ)
    (hostName imageName oldTag newTag : String)
    (hurl : w.newRequestErr "GET" (manifestURL hostName imageName oldTag) = none) :
    fetchCount (tagAttempt w t hostName imageName oldTag newTag s).2.log =
      fetchCount s.log + 1 := by
  obtain ⟨res, h⟩ := tagAttempt_log w t s hostName imageName oldTag newTag hurl
  rcases h with h | ⟨resp, m, res2, _, _, _, _, h⟩
  · rw [h]
    simp [fetchCount, List.countP_append, pullRequest_eq]
  · rw [h]
    simp [fetchCount, List.countP_append, List.countP_cons, pullRequest_eq, pushRequest_eq]

/-- An attempt whose GET is answered by a response that the fetch rejects
returns the fetch error and sends nothing else. -/
theorem tagAttempt_of_rejected_response {σ : Type} (w : World σ) (t : Client) (s : St σ)
    (hostName imageName oldTag newTag : String) (resp : Response) (t1 : σ) (e : GoError)
    (hurl : w.newRequestErr "GET" (manifestURL hostName imageName oldTag) = none)
    (hdo : w.roundTrip s.transport
      (pullRequest t.Username t.Password (manifestURL hostName imageName oldTag)) =
        (.response resp, t1))
    (hval : (if resp.StatusCode = 404 then (none, "", some GoError.ErrorManifestNotFound)
       else if resp.StatusCode ≠ 200 then (none, "", some (.errorsNew resp.Status))
       else decodeOutcome w resp.Body) = (none, "", some e)) :
    tagAttempt w t hostName imageName oldTag newTag s =
      (.returned (some e),
        { transport := t1, log := s.log ++
          [{ req := pullRequest t.Username t.Password (manifestURL hostName imageName oldTag),
             res := .response resp }] }) := by
  apply tagAttempt_of_fetch_error w t s _ _ _ _ _ none ""
  rw [pullManifest_response w s _ _ _ _ _ resp t1 hurl hdo, hval]

/-! ## Every publish follows its fetch -/

theorem publishFollowsFetch_nil {σ : Type} (w : World σ) (t : Client)
    (hostName imageName oldTag newTag : String) :
    PublishFollowsFetch w t hostName imageName oldTag newTag [] := by
  intro i p hi
  simp at hi

theorem publishFollowsFetch_append_fetch {σ : Type} (w : World σ) (t : Client)
    (hostName imageName oldTag newTag : String) (log : List Exchange) (g : Exchange)
    (hlog : PublishFollowsFetch w t hostName imageName oldTag newTag log)
    (hg : g.req.Method = "GET") :
    PublishFollowsFetch w t hostName imageName oldTag newTag (log ++ [g]) := by
  intro i p hi hp
  by_cases hlt : i < log.length
  · rw [List.getElem?_append_left hlt] at hi
    obtain ⟨g1, resp, m, hpos, hprev, rest⟩ := hlog i p hi hp
    refine ⟨g1, resp, m, hpos, ?_, rest⟩
    rw [List.getElem?_append_left (by omega)]
    exact hprev
  · rw [List.getElem?_append_right (by omega)] at hi
    cases hk : i - log.length with
    | zero =>
      rw [hk] at hi
      simp only [List.getElem?_cons_zero, Option.some.injEq] at hi
      subst hi
      rw [hg] at hp
      exact absurd hp (by decide)
    | succ k =>
      rw [hk] at hi
      simp at hi

theorem publishFollowsFetch_append_pair {σ : Type} (w : World σ) (t : Client)
    (hostName imageName oldTag newTag : String) (log : List Exchange)
    (resp : Response) (m : Manifest) (res2 : DoResult)
    (hlog : PublishFollowsFetch w t hostName imageName oldTag newTag log)
    (hcode : resp.StatusCode = 200) (hparse : w.unmarshal resp.Body = .ok m)
    (hm : m.MediaType ≠ "") :
    PublishFollowsFetch w t hostName imageName oldTag newTag (log ++
      [{ req := pullRequest t.Username t.Password (manifestURL hostName imageName oldTag),
         res := .response resp },
       { req := pushRequest t.Username t.Password (manifestURL hostName imageName newTag)
           resp.Body m.MediaType,
         res := res2 }]) := by
  intro i p hi hp
  by_cases hlt : i < log.length
  · rw [List.getElem?_append_left hlt] at hi
    obtain ⟨g1, resp1, m1, hpos, hprev, rest⟩ := hlog i p hi hp
    refine ⟨g1, resp1, m1, hpos, ?_, rest⟩
    rw [List.getElem?_append_left (by omega)]
    exact hprev
  · rw [List.getElem?_append_right (by omega)] at hi
    cases hk : i - log.length with
    | zero =>
      rw [hk] at hi
      simp only [List.getElem?_cons_zero, Option.some.injEq] at hi
      subst hi
      simp [pullRequest_eq] at hp
    | succ k =>
      cases k with
      | zero =>
        rw [hk] at hi
        simp only [zero_add, List.getElem?_cons_succ, List.getElem?_cons_zero,
          Option.some.injEq] at hi
        subst hi
        refine ⟨Exchange.mk
          (pullRequest t.Username t.Password (manifestURL hostName imageName oldTag))
          (.response resp), resp, m, by omega, ?_, ?_⟩
        · rw [List.getElem?_append_right (by omega)]
          have hidx : i - 1 - log.length = 0 := by omega
          rw [hidx]
          rfl
        · simp [pullRequest_eq, pushRequest_eq, manifestURL, hcode, hparse, hm]
      | succ j =>
        rw [hk] at hi
        simp at hi

theorem tagAttempt_publishFollowsFetch {σ : Type} (w : World σ) (t : Client) (s : St σ)
    (hostName imageName oldTag newTag : String)
    (hlog : PublishFollowsFetch w t hostName imageName oldTag newTag s.log) :
    PublishFollowsFetch w t hostName imageName oldTag newTag
      (tagAttempt w t hostName imageName oldTag newTag s).2.log := by
  cases hurl : w.newRequestErr "GET" (manifestURL hostName imageName oldTag) with
  | some e =>
    rw [tagAttempt_of_fetch_error w t s s _ _ _ _ none "" (.newRequest e)
      (pullManifest_newRequest_failed w s _ _ _ _ _ e hurl)]
    exact hlog
  | none =>
    obtain ⟨res, h⟩ := tagAttempt_log w t s hostName imageName oldTag newTag hurl
    rcases h with h | ⟨resp, m, res2, hres, hcode, hparse, hm, h⟩
    · rw [h]
      exact publishFollowsFetch_append_fetch w t _ _ _ _ _ _ hlog (by simp [pullRequest_eq])
    · rw [h, hres]
      exact publishFollowsFetch_append_pair w t _ _ _ _ _ resp m res2 hlog hcode hparse hm

theorem retryLoop_publishFollowsFetch {σ : Type} (w : World σ) (t : Client)
    (hostName imageName oldTag newTag : String) (n : Nat) (last : Option GoError) (s : St σ)
    (hlog : PublishFollowsFetch w t hostName imageName oldTag newTag s.log) :
    PublishFollowsFetch w t hostName imageName oldTag newTag
      (retryLoop (tagAttempt w t hostName imageName oldTag newTag) n last s).2.log := by
  induction n generalizing last s with
  | zero => exact hlog
  | succ n ih =>
    have hstep := tagAttempt_publishFollowsFetch w t s hostName imageName oldTag newTag hlog
    rcases h : tagAttempt w t hostName imageName oldTag newTag s with ⟨out, s1⟩
    rw [h] at hstep
    cases out with
    | panicked text => simpa [retryLoop, h] using hstep
    | returned r =>
      cases r with
      | none => simpa [retryLoop, h] using hstep
      | some e =>
        rw [retryLoop_failed _ n last s s1 e h]
        exact ih (some e) s1 hstep

/-! ## Attempts whose publish is never answered 201 -/

/-- When no PUT is answered 201 and the GET request can be built, an attempt
returns an error, its log ends with an exchange of its own, and if that
exchange is a PUT answered by a response, the error is made from the status
text of that response. -/
theorem tagAttempt_without_created {σ : Type} (w : World σ) (t : Client) (s : St σ)
    (hostName imageName oldTag newTag : String)
    (hurl : w.newRequestErr "GET" (manifestURL hostName imageName oldTag) = none)
    (hput : ∀ tr req resp, req.Method = "PUT" → (w.roundTrip tr req).1 = .response resp →
      resp.StatusCode ≠ 201) :
    ∃ e s1 x, tagAttempt w t hostName imageName oldTag newTag s = (.returned (some e), s1) ∧
      s1.log.getLast? = some x ∧
      (x.req.Method = "PUT" → ∀ resp, x.res = .response resp → e = .errorsNew resp.Status) := by
  obtain ⟨hst, _⟩ := pullManifest_sent w s t.Username t.Password hostName imageName oldTag hurl
  rcases hpull : pullManifest w s t.Username t.Password hostName imageName oldTag
    with ⟨⟨b, mt, err⟩, s1⟩
  rw [hpull] at hst
  simp only at hst
  have hlast : s1.log.getLast? = some
      (Exchange.mk (pullRequest t.Username t.Password (manifestURL hostName imageName oldTag))
        (w.roundTrip s.transport
          (pullRequest t.Username t.Password (manifestURL hostName imageName oldTag))).1) := by
    rw [hst]
    simp
  cases err with
  | some e =>
    refine ⟨e, s1, _, tagAttempt_of_fetch_error w t s s1 _ _ _ _ b mt e hpull, hlast, ?_⟩
    intro hm
    simp [pullRequest_eq] at hm
  | none =>
    have hatt := tagAttempt_of_fetch_ok w t s s1 hostName imageName oldTag newTag b mt hpull
    cases hnew : w.newRequestErr "PUT" (manifestURL hostName imageName newTag) with
    | some e =>
      rw [pushManifest_newRequest_failed w s1 _ _ _ _ _ _ _ e hnew] at hatt
      refine ⟨_, s1, _, hatt, hlast, ?_⟩
      intro hm
      simp [pullRequest_eq] at hm
    | none =>
      rcases hdo : w.roundTrip s1.transport
        (pushRequest t.Username t.Password (manifestURL hostName imageName newTag)
          (sliceContent b) mt) with ⟨res, t2⟩
      cases res with
      | failure e =>
        rw [pushManifest_failure w s1 _ _ _ _ _ _ _ e t2 hnew hdo] at hatt
        refine ⟨_, _, _, hatt, List.getLast?_concat _, ?_⟩
        intro _ resp hres
        simp at hres
      | response resp2 =>
        have hcode := hput s1.transport
          (pushRequest t.Username t.Password (manifestURL hostName imageName newTag)
            (sliceContent b) mt) resp2 (by simp [pushRequest_eq]) (by rw [hdo])
        rw [pushManifest_response w s1 _ _ _ _ _ _ _ resp2 t2 hnew hdo] at hatt
        simp only [hcode, ne_eq, not_false_eq_true, if_true] at hatt
        refine ⟨_, _, _, hatt, List.getLast?_concat _, ?_⟩
        intro _ resp hres
        simp only [DoResult.response.injEq] at hres
        rw [hres]

/-! ## Claims about the fetch and the publish taken alone -/

/-- C1: when the PUT is answered with status 201 and no transport error,
`pushManifest` does not return nil: the variable `err` is nil at the final
print statement, `err.Error()` dereferences it, and the call panics. -/
theorem pushManifest_created_panics {σ : Type} (w : World σ) (s : St σ)
    (username password hostName imageName tag : String) (manifest : Bytes)
    (mediaType : String) (resp : Response) (t1 : σ)
    (hurl : w.newRequestErr "PUT" (manifestURL hostName imageName tag) = none)
    (hdo : w.roundTrip s.transport
      (pushRequest username password (manifestURL hostName imageName tag) manifest mediaType) =
        (.response resp, t1))
    (hcode : resp.StatusCode = 201) :
    (pushManifest w s username password hostName imageName tag manifest mediaType).1 =
      .panicked nilDereference := by
  rw [pushManifest_response w s _ _ _ _ _ _ _ resp t1 hurl hdo]
  simp [hcode]

/-- C1 at a concrete registry that answers the PUT with `201 Created`: the
publish panics instead of returning nil. -/
theorem pushManifest_created_panics_witness :
    (pushManifest
      (fixedWorld (demoResponse 200 "200 OK" demoBody) (demoResponse 201 "201 Created" []))
      (St.init ()) "admin" "secret" "registry.local" "app" "v2" demoBody "m").1 =
      .panicked nilDereference :=
  pushManifest_created_panics _ _ _ _ _ _ _ _ _
    { StatusCode := 201, Status := "201 Created", Body := [], BodyErr := none } () rfl
    (by simp [fixedWorld, demoResponse, pushRequest_eq, St.init]) rfl

/-- C4: a GET answered with status 200 whose body decodes to a manifest with
a non-empty media type makes `pullManifest` return the body bytes as read, the
decoded media type, and a nil error. -/
theorem pullManifest_returns_body {σ : Type} (w : World σ) (s : St σ)
    (username password hostName imageName tag : String) (resp : Response) (t1 : σ)
    (m : Manifest)
    (hurl : w.newRequestErr "GET" (manifestURL hostName imageName tag) = none)
    (hdo : w.roundTrip s.transport
      (pullRequest username password (manifestURL hostName imageName tag)) =
        (.response resp, t1))
    (hcode : resp.StatusCode = 200)
    (hparse : w.unmarshal resp.Body = .ok m)
    (hmt : m.MediaType ≠ "") :
    (pullManifest w s username password hostName imageName tag).1 =
      (some resp.Body, m.MediaType, none) := by
  rw [pullManifest_response w s _ _ _ _ _ resp t1 hurl hdo]
  simp [hcode, decodeOutcome, hparse, hmt]

/-- C4 at a concrete registry. -/
theorem pullManifest_returns_body_witness :
    (pullManifest
      (fixedWorld (demoResponse 200 "200 OK" demoBody) (demoResponse 201 "201 Created" []))
      (St.init ()) "admin" "secret" "registry.local" "app" "v1").1 =
      (some demoBody, "m", none) :=
  pullManifest_returns_body _ _ _ _ _ _ _
    { StatusCode := 200, Status := "200 OK", Body := demoBody, BodyErr := none } ()
    { zeroManifest with MediaType := "m" } rfl
    (by simp [fixedWorld, demoResponse, pullRequest_eq, St.init]) rfl rfl (by decide)

/-- C9: a GET answered with a status other than 200 and 404 makes
`pullManifest` return a nil slice, an empty media type and an error made from
the status text; that error is neither sentinel, and the result does not
depend on the JSON decoder. -/
theorem pullManifest_other_status {σ : Type} (w : World σ) (s : St σ)
    (username password hostName imageName tag : String) (resp : Response) (t1 : σ)
    (hurl : w.newRequestErr "GET" (manifestURL hostName imageName tag) = none)
    (hdo : w.roundTrip s.transport
      (pullRequest username password (manifestURL hostName imageName tag)) =
        (.response resp, t1))
    (h200 : resp.StatusCode ≠ 200) (h404 : resp.StatusCode ≠ 404) :
    (pullManifest w s username password hostName imageName tag).1 =
        (none, "", some (.errorsNew resp.Status)) ∧
      (GoError.errorsNew resp.Status).Error = resp.Status ∧
      GoError.errorsNew resp.Status ≠ .ErrorManifestNotFound ∧
      GoError.errorsNew resp.Status ≠ .ErrorMediaTypeInvalid ∧
      ∀ u : Bytes → Except String Manifest,
        pullManifest { w with unmarshal := u } s username password hostName imageName tag =
          pullManifest w s username password hostName imageName tag := by
  refine ⟨?_, rfl, by simp, by simp, ?_⟩
  · rw [pullManifest_response w s _ _ _ _ _ resp t1 hurl hdo]
    simp [h200, h404]
  · intro u
    rw [pullManifest_response w s _ _ _ _ _ resp t1 hurl hdo,
      pullManifest_response { w with unmarshal := u } s _ _ _ _ _ resp t1 hurl hdo]
    simp [h200, h404]

/-- C9 at a concrete registry answering `500 Internal Server Error`. -/
theorem pullManifest_other_status_witness :
    (pullManifest
      (fixedWorld (demoResponse 500 "500 Internal Server Error" demoBody)
        (demoResponse 201 "201 Created" []))
      (St.init ()) "admin" "secret" "registry.local" "app" "v1").1 =
      (none, "", some (.errorsNew "500 Internal Server Error")) :=
  (pullManifest_other_status _ _ _ _ _ _ _
    { StatusCode := 500, Status := "500 Internal Server Error", Body := demoBody,
      BodyErr := none } () rfl
    (by simp [fixedWorld, demoResponse, pullRequest_eq, St.init]) (by decide) (by decide)).1

/-- C10: the error of reading the body of a 200 response is dropped.  Two
200 responses with the same bytes read give the same result whatever their
read errors, the returned error is nil, `ErrorMediaTypeInvalid` or the error
of the JSON decoder and never the read error, and bytes that decode to a
manifest with a non-empty media type are returned with a nil error even when
the read reported an error. -/
theorem pullManifest_drops_read_error {σ : Type} (w : World σ) (s s2 : St σ)
    (username password hostName imageName tag : String) (resp resp2 : Response)
    (t1 t2 : σ)
    (hurl : w.newRequestErr "GET" (manifestURL hostName imageName tag) = none)
    (hdo : w.roundTrip s.transport
      (pullRequest username password (manifestURL hostName imageName tag)) =
        (.response resp, t1))
    (hdo2 : w.roundTrip s2.transport
      (pullRequest username password (manifestURL hostName imageName tag)) =
        (.response resp2, t2))
    (hcode : resp.StatusCode = 200) (hcode2 : resp2.StatusCode = 200)
    (hbody : resp2.Body = resp.Body) :
    (pullManifest w s username password hostName imageName tag).1 =
        (pullManifest w s2 username password hostName imageName tag).1 ∧
      ((pullManifest w s username password hostName imageName tag).1.2.2 = none ∨
        (pullManifest w s username password hostName imageName tag).1.2.2 =
          some .ErrorMediaTypeInvalid ∨
        ∃ e, w.unmarshal resp.Body = .error e ∧
          (pullManifest w s username password hostName imageName tag).1.2.2 =
            some (.jsonUnmarshal e)) ∧
      ∀ m readErr, resp.BodyErr = some readErr → w.unmarshal resp.Body = .ok m →
        m.MediaType ≠ "" →
        (pullManifest w s username password hostName imageName tag).1 =
          (some resp.Body, m.MediaType, none) := by
  rw [pullManifest_response w s _ _ _ _ _ resp t1 hurl hdo,
    pullManifest_response w s2 _ _ _ _ _ resp2 t2 hurl hdo2]
  refine ⟨by simp [hcode, hcode2, hbody], ?_, ?_⟩
  · simp only [hcode, decodeOutcome]
    cases w.unmarshal resp.Body with
    | error e => simp
    | ok m => by_cases hm : m.MediaType = "" <;> simp [hm]
  · intro m _ _ hparse hmt
    simp [hcode, decodeOutcome, hparse, hmt]

/-- C10 at a concrete transport: the first GET delivers the whole manifest
together with a read error, and `pullManifest` returns the bytes and the media
type with a nil error, as it does for the same bytes read without error. -/
theorem pullManifest_drops_read_error_witness :
    truncatedResponse.BodyErr = some "unexpected EOF" ∧
    (pullManifest scriptedWorld (St.init [.response truncatedResponse])
      "admin" "secret" "registry.local" "app" "v1").1 = (some demoBody, "m", none) ∧
    (pullManifest scriptedWorld (St.init [.response truncatedResponse])
      "admin" "secret" "registry.local" "app" "v1").1 =
    (pullManifest scriptedWorld (St.init [demoResponse 200 "200 OK" demoBody])
      "admin" "secret" "registry.local" "app" "v1").1 :=
  have h := pullManifest_drops_read_error scriptedWorld
    (St.init [.response truncatedResponse]) (St.init [demoResponse 200 "200 OK" demoBody])
    "admin" "secret" "registry.local" "app" "v1" truncatedResponse
    ⟨200, "200 OK", demoBody, none⟩ [] [] rfl rfl rfl rfl rfl rfl
  ⟨rfl, h.2.2 { zeroManifest with MediaType := "m" } "unexpected EOF" rfl rfl (by decide), h.1⟩

/-! ## Claims about the whole operation -/

/-- C8: when three attempts in a row fail, whatever their errors, `TagImage`
returns exactly the error of the third attempt in the state the third attempt
left: it makes no fourth attempt, and each of the three attempts sent its own
GET (three more GET requests in the log when the GET request can be built). -/
theorem TagImage_three_failed_attempts {σ : Type} (w : World σ) (t : Client)
    (hostName imageName oldTag newTag : String) (s0 s1 s2 s3 : St σ) (e1 e2 e3 : GoError)
    (h1 : tagAttempt w t hostName imageName oldTag newTag s0 = (.returned (some e1), s1))
    (h2 : tagAttempt w t hostName imageName oldTag newTag s1 = (.returned (some e2), s2))
    (h3 : tagAttempt w t hostName imageName oldTag newTag s2 = (.returned (some e3), s3)) :
    TagImage w t s0 hostName imageName oldTag newTag = (.returned (some e3), s3) ∧
      (w.newRequestErr "GET" (manifestURL hostName imageName oldTag) = none →
        fetchCount s3.log = fetchCount s0.log + 3) := by
  refine ⟨TagImage_of_three_failures w t _ _ _ _ s0 s1 s2 s3 e1 e2 e3 h1 h2 h3, ?_⟩
  intro hurl
  have c1 := tagAttempt_fetchCount w t s0 hostName imageName oldTag newTag hurl
  have c2 := tagAttempt_fetchCount w t s1 hostName imageName oldTag newTag hurl
  have c3 := tagAttempt_fetchCount w t s2 hostName imageName oldTag newTag hurl
  rw [h1] at c1
  rw [h2] at c2
  rw [h3] at c3
  simp only at c1 c2 c3
  omega

/-- C8 at a concrete transport whose three attempts fail in three different
ways: the error returned is the third one, made from `403 Forbidden`, and the
log holds three GET requests. -/
theorem TagImage_three_failed_attempts_witness :
    (TagImage scriptedWorld demoClient (St.init threeFaults)
        "registry.local" "app" "v1" "v2").1 = .returned (some (.errorsNew "403 Forbidden")) ∧
      fetchCount (TagImage scriptedWorld demoClient (St.init threeFaults)
        "registry.local" "app" "v1" "v2").2.log = 3 := by
  have h := TagImage_three_failed_attempts scriptedWorld demoClient
    "registry.local" "app" "v1" "v2" (St.init threeFaults) _ _ _
    (.clientDo "timeout") .ErrorManifestNotFound (.errorsNew "403 Forbidden") rfl rfl rfl
  refine ⟨by rw [h.1], ?_⟩
  rw [h.1]
  exact h.2 rfl

/-- C2: when the first two attempts fail and the third has its GET answered
200 with a manifest of non-empty media type and its PUT answered 201,
`TagImage` does not return nil: the third publish panics on `err.Error()` and
the panic leaves `TagImage`. -/
theorem TagImage_third_attempt_created_panics {σ : Type} (w : World σ) (t : Client)
    (hostName imageName oldTag newTag : String) (s0 s1 s2 : St σ) (e1 e2 : GoError)
    (resp resp2 : Response) (m : Manifest) (t3 t4 : σ)
    (h1 : tagAttempt w t hostName imageName oldTag newTag s0 = (.returned (some e1), s1))
    (h2 : tagAttempt w t hostName imageName oldTag newTag s1 = (.returned (some e2), s2))
    (hget : w.newRequestErr "GET" (manifestURL hostName imageName oldTag) = none)
    (hdo : w.roundTrip s2.transport
      (pullRequest t.Username t.Password (manifestURL hostName imageName oldTag)) =
        (.response resp, t3))
    (hcode : resp.StatusCode = 200)
    (hparse : w.unmarshal resp.Body = .ok m)
    (hmt : m.MediaType ≠ "")
    (hput : w.newRequestErr "PUT" (manifestURL hostName imageName newTag) = none)
    (hdo2 : w.roundTrip t3
      (pushRequest t.Username t.Password (manifestURL hostName imageName newTag)
        resp.Body m.MediaType) = (.response resp2, t4))
    (hcode2 : resp2.StatusCode = 201) :
    (TagImage w t s0 hostName imageName oldTag newTag).1 = .panicked nilDereference := by
  have hpull : pullManifest w s2 t.Username t.Password hostName imageName oldTag =
      ((some resp.Body, m.MediaType, none),
        { transport := t3, log := s2.log ++
          [{ req := pullRequest t.Username t.Password (manifestURL hostName imageName oldTag),
             res := .response resp }] }) := by
    rw [pullManifest_response w s2 _ _ _ _ _ resp t3 hget hdo]
    simp [hcode, decodeOutcome, hparse, hmt]
  have h3 := tagAttempt_of_fetch_ok w t s2 _ hostName imageName oldTag newTag _ _ hpull
  rw [pushManifest_response w _ _ _ _ _ _ _ _ resp2 t4 hput hdo2] at h3
  simp only [hcode2, ne_eq, not_true_eq_false, if_false] at h3
  rw [TagImage_of_third_panic w t _ _ _ _ s0 s1 s2 _ e1 e2 _ h1 h2 h3]

/-- C2 at a concrete fault-injected transport that fails twice and then
answers 200 and 201: `TagImage` panics. -/
theorem TagImage_third_attempt_created_panics_witness :
    (TagImage scriptedWorld demoClient (St.init twoFaultsThenCreated)
      "registry.local" "app" "v1" "v2").1 = .panicked nilDereference :=
  TagImage_third_attempt_created_panics scriptedWorld demoClient
    "registry.local" "app" "v1" "v2" (St.init twoFaultsThenCreated) _ _
    (.clientDo "timeout") (.errorsNew "500 Internal Server Error")
    ⟨200, "200 OK", demoBody, none⟩ ⟨201, "201 Created", [], none⟩
    { zeroManifest with MediaType := "m" } [demoResponse 201 "201 Created" []] []
    rfl rfl rfl rfl rfl rfl (by decide) rfl rfl rfl

/-- C5: when the GET request can be built and every GET is answered with
status 404, `TagImage` returns `ErrorManifestNotFound`, which is not an error
made from a status text, and the log of the whole call holds no PUT. -/
theorem TagImage_not_found {σ : Type} (w : World σ) (t : Client) (tr0 : σ)
    (hostName imageName oldTag newTag : String)
    (hurl : w.newRequestErr "GET" (manifestURL hostName imageName oldTag) = none)
    (h404 : ∀ tr req, req.Method = "GET" →
      ∃ resp, (w.roundTrip tr req).1 = .response resp ∧ resp.StatusCode = 404) :
    (TagImage w t (St.init tr0) hostName imageName oldTag newTag).1 =
        .returned (some .ErrorManifestNotFound) ∧
      (∀ text, GoError.ErrorManifestNotFound ≠ .errorsNew text) ∧
      ∀ x ∈ (TagImage w t (St.init tr0) hostName imageName oldTag newTag).2.log,
        x.req.Method ≠ "PUT" := by
  have step : ∀ s : St σ, ∃ resp t1,
      tagAttempt w t hostName imageName oldTag newTag s =
        (.returned (some .ErrorManifestNotFound),
          { transport := t1, log := s.log ++
            [{ req := pullRequest t.Username t.Password (manifestURL hostName imageName oldTag),
               res := .response resp }] }) := by
    intro s
    obtain ⟨resp, hres, hcode⟩ := h404 s.transport
      (pullRequest t.Username t.Password (manifestURL hostName imageName oldTag))
      (by simp [pullRequest_eq])
    rcases hdo : w.roundTrip s.transport
      (pullRequest t.Username t.Password (manifestURL hostName imageName oldTag)) with ⟨res, t1⟩
    rw [hdo] at hres
    simp only at hres
    subst hres
    exact ⟨resp, t1, tagAttempt_of_rejected_response w t s _ _ _ _ resp t1 _ hurl hdo
      (by simp [hcode])⟩
  obtain ⟨r1, t1, h1⟩ := step (St.init tr0)
  obtain ⟨r2, t2, h2⟩ := step _
  obtain ⟨r3, t3, h3⟩ := step _
  rw [TagImage_of_three_failures w t _ _ _ _ _ _ _ _ _ _ _ h1 h2 h3]
  refine ⟨rfl, by simp, ?_⟩
  intro x hx
  simp only [St.init, List.nil_append, List.cons_append, List.mem_cons, List.mem_singleton,
    List.not_mem_nil, or_false] at hx
  rcases hx with rfl | rfl | rfl <;> simp [pullRequest_eq]

/-- C5 at a concrete registry that answers every GET with `404 Not Found`. -/
theorem TagImage_not_found_witness :
    (TagImage (fixedWorld (demoResponse 404 "404 Not Found" [])
        (demoResponse 201 "201 Created" [])) demoClient (St.init ())
        "registry.local" "app" "v1" "v2").1 = .returned (some .ErrorManifestNotFound) ∧
      ∀ x ∈ (TagImage (fixedWorld (demoResponse 404 "404 Not Found" [])
        (demoResponse 201 "201 Created" [])) demoClient (St.init ())
        "registry.local" "app" "v1" "v2").2.log, x.req.Method ≠ "PUT" :=
  have h := TagImage_not_found (fixedWorld (demoResponse 404 "404 Not Found" [])
    (demoResponse 201 "201 Created" [])) demoClient () "registry.local" "app" "v1" "v2" rfl
    (fun _ req hreq => ⟨⟨404, "404 Not Found", [], none⟩, by simp [fixedWorld, hreq, demoResponse],
      rfl⟩)
  ⟨h.1, h.2.2⟩

/-- C6, as amended: when the GET request can be built and every GET is
answered with status 200 and a body that `json.Unmarshal` decodes without
error to a manifest whose media type is empty (absent from the JSON or the
empty string), `TagImage` returns `ErrorMediaTypeInvalid`, which is neither
`ErrorManifestNotFound` nor a JSON decoding error, and the log of the whole
call holds no PUT. -/
theorem TagImage_media_type_invalid {σ : Type} (w : World σ) (t : Client) (tr0 : σ)
    (hostName imageName oldTag newTag : String)
    (hurl : w.newRequestErr "GET" (manifestURL hostName imageName oldTag) = none)
    (hempty : ∀ tr req, req.Method = "GET" →
      ∃ resp m, (w.roundTrip tr req).1 = .response resp ∧ resp.StatusCode = 200 ∧
        w.unmarshal resp.Body = .ok m ∧ m.MediaType = "") :
    (TagImage w t (St.init tr0) hostName imageName oldTag newTag).1 =
        .returned (some .ErrorMediaTypeInvalid) ∧
      GoError.ErrorMediaTypeInvalid ≠ .ErrorManifestNotFound ∧
      (∀ text, GoError.ErrorMediaTypeInvalid ≠ .jsonUnmarshal text) ∧
      ∀ x ∈ (TagImage w t (St.init tr0) hostName imageName oldTag newTag).2.log,
        x.req.Method ≠ "PUT" := by
  have step : ∀ s : St σ, ∃ resp t1,
      tagAttempt w t hostName imageName oldTag newTag s =
        (.returned (some .ErrorMediaTypeInvalid),
          { transport := t1, log := s.log ++
            [{ req := pullRequest t.Username t.Password (manifestURL hostName imageName oldTag),
               res := .response resp }] }) := by
    intro s
    obtain ⟨resp, m, hres, hcode, hparse, hm⟩ := hempty s.transport
      (pullRequest t.Username t.Password (manifestURL hostName imageName oldTag))
      (by simp [pullRequest_eq])
    rcases hdo : w.roundTrip s.transport
      (pullRequest t.Username t.Password (manifestURL hostName imageName oldTag)) with ⟨res, t1⟩
    rw [hdo] at hres
    simp only at hres
    subst hres
    exact ⟨resp, t1, tagAttempt_of_rejected_response w t s _ _ _ _ resp t1 _ hurl hdo
      (by simp [hcode, decodeOutcome, hparse, hm])⟩
  obtain ⟨r1, t1, h1⟩ := step (St.init tr0)
  obtain ⟨r2, t2, h2⟩ := step _
  obtain ⟨r3, t3, h3⟩ := step _
  rw [TagImage_of_three_failures w t _ _ _ _ _ _ _ _ _ _ _ h1 h2 h3]
  refine ⟨rfl, by simp, by simp, ?_⟩
  intro x hx
  simp only [St.init, List.nil_append, List.cons_append, List.mem_cons, List.mem_singleton,
    List.not_mem_nil, or_false] at hx
  rcases hx with rfl | rfl | rfl <;> simp [pullRequest_eq]

/-- C6 at a concrete registry that answers every GET with 200 and the empty
JSON object, which has no `mediaType` member. -/
theorem TagImage_media_type_invalid_witness :
    (TagImage (fixedWorld (demoResponse 200 "200 OK" emptyObjectBody)
        (demoResponse 201 "201 Created" [])) demoClient (St.init ())
        "registry.local" "app" "v1" "v2").1 = .returned (some .ErrorMediaTypeInvalid) ∧
      ∀ x ∈ (TagImage (fixedWorld (demoResponse 200 "200 OK" emptyObjectBody)
        (demoResponse 201 "201 Created" [])) demoClient (St.init ())
        "registry.local" "app" "v1" "v2").2.log, x.req.Method ≠ "PUT" :=
  have h := TagImage_media_type_invalid (fixedWorld (demoResponse 200 "200 OK" emptyObjectBody)
    (demoResponse 201 "201 Created" [])) demoClient () "registry.local" "app" "v1" "v2" rfl
    (fun _ req hreq => ⟨⟨200, "200 OK", emptyObjectBody, none⟩, zeroManifest,
      by simp [fixedWorld, hreq, demoResponse], rfl, rfl, rfl⟩)
  ⟨h.1, h.2.2.2⟩

/-- C6 as first stated fails: every GET is answered with status 200 and the
well-formed JSON body `stringVersionBody`, which has no `mediaType` member,
yet `json.Unmarshal` reports its type error before the media type is tested,
and `TagImage` returns that decoding error, not `ErrorMediaTypeInvalid`.  No
PUT is sent. -/
theorem TagImage_media_type_missing_counterexample :
    (∀ (tr : Unit) (req : Request), req.Method = "GET" →
        ((fixedWorld (demoResponse 200 "200 OK" stringVersionBody)
          (demoResponse 201 "201 Created" [])).roundTrip tr req).1 =
          demoResponse 200 "200 OK" stringVersionBody) ∧
      (fixedWorld (demoResponse 200 "200 OK" stringVersionBody)
        (demoResponse 201 "201 Created" [])).unmarshal stringVersionBody =
          .error stringVersionError ∧
      (TagImage (fixedWorld (demoResponse 200 "200 OK" stringVersionBody)
        (demoResponse 201 "201 Created" [])) demoClient (St.init ())
        "registry.local" "app" "v1" "v2").1 =
          .returned (some (.jsonUnmarshal stringVersionError)) ∧
      (TagImage (fixedWorld (demoResponse 200 "200 OK" stringVersionBody)
        (demoResponse 201 "201 Created" [])) demoClient (St.init ())
        "registry.local" "app" "v1" "v2").1 ≠ .returned (some .ErrorMediaTypeInvalid) ∧
      fetchCount (TagImage (fixedWorld (demoResponse 200 "200 OK" stringVersionBody)
        (demoResponse 201 "201 Created" [])) demoClient (St.init ())
        "registry.local" "app" "v1" "v2").2.log = 3 ∧
      (TagImage (fixedWorld (demoResponse 200 "200 OK" stringVersionBody)
        (demoResponse 201 "201 Created" [])) demoClient (St.init ())
        "registry.local" "app" "v1" "v2").2.log.length = 3 := by
  have hrun : (TagImage (fixedWorld (demoResponse 200 "200 OK" stringVersionBody)
      (demoResponse 201 "201 Created" [])) demoClient (St.init ())
      "registry.local" "app" "v1" "v2").1 =
        .returned (some (.jsonUnmarshal stringVersionError)) := rfl
  refine ⟨?_, rfl, hrun, ?_, rfl, rfl⟩
  · intro tr req hreq
    simp [fixedWorld, hreq]
  · rw [hrun]
    simp

/-- C3: in the log of a whole `TagImage` call every PUT comes right after a
GET of the same call that was answered 200 and fetched successfully; the PUT
goes to the destination tag under the same host and repository, carries the
same Basic credentials as the GET (the client's), has the body of the GET
response as its body and the media type decoded from that body as its
`Content-Type`. -/
theorem TagImage_publishes_fetched_manifest {σ : Type} (w : World σ) (t : Client) (tr0 : σ)
    (hostName imageName oldTag newTag : String) (i : Nat) (p : Exchange)
    (hi : (TagImage w t (St.init tr0) hostName imageName oldTag newTag).2.log[i]? = some p)
    (hp : p.req.Method = "PUT") :
    ∃ g resp m, 0 < i ∧
      (TagImage w t (St.init tr0) hostName imageName oldTag newTag).2.log[i - 1]? = some g ∧
      g.req.Method = "GET" ∧
      g.req.URL = "http://" ++ hostName ++ "/v2/" ++ imageName ++ "/manifests/" ++ oldTag ∧
      g.req.BasicAuth = some (t.Username, t.Password) ∧
      g.res = .response resp ∧ resp.StatusCode = 200 ∧
      w.unmarshal resp.Body = .ok m ∧ m.MediaType ≠ "" ∧
      p.req.URL = "http://" ++ hostName ++ "/v2/" ++ imageName ++ "/manifests/" ++ newTag ∧
      p.req.Body = some resp.Body ∧
      p.req.Header = [("Content-Type", m.MediaType)] ∧
      p.req.BasicAuth = some (t.Username, t.Password) :=
  retryLoop_publishFollowsFetch w t hostName imageName oldTag newTag 3 none (St.init tr0)
    (publishFollowsFetch_nil w t hostName imageName oldTag newTag) i p hi hp

/-- C3 at a concrete registry: the second exchange of the call is the PUT,
and it republishes what the GET before it fetched. -/
theorem TagImage_publishes_fetched_manifest_witness :
    (TagImage forbiddenWorld demoClient (St.init ())
        "registry.local" "app" "v1" "v2").2.log[1]? = some forbiddenPublish ∧
      forbiddenPublish.req.Method = "PUT" ∧
      ∃ g resp m,
        (TagImage forbiddenWorld demoClient (St.init ())
          "registry.local" "app" "v1" "v2").2.log[0]? = some g ∧
        g.req.URL = "http://registry.local/v2/app/manifests/v1" ∧
        g.res = .response resp ∧ forbiddenWorld.unmarshal resp.Body = .ok m ∧
        forbiddenPublish.req.URL = "http://registry.local/v2/app/manifests/v2" ∧
        forbiddenPublish.req.Body = some resp.Body ∧
        forbiddenPublish.req.Header = [("Content-Type", m.MediaType)] ∧
        forbiddenPublish.req.BasicAuth = g.req.BasicAuth := by
  obtain ⟨g, resp, m, _, h0, _, hgurl, hgauth, hres, _, hparse, _, hpurl, hbody, hhdr, hauth⟩ :=
    TagImage_publishes_fetched_manifest forbiddenWorld demoClient ()
      "registry.local" "app" "v1" "v2" 1 forbiddenPublish rfl rfl
  exact ⟨rfl, rfl, g, resp, m, h0, hgurl, hres, hparse, hpurl, hbody, hhdr,
    hauth.trans hgauth.symm⟩

/-- C7: a PUT answered with any status other than 201 makes `pushManifest`
return a non-nil error whose message is the status text of the response; and
when no PUT is answered 201, `TagImage` returns a non-nil error, which is the
error made from the status text of the last PUT response whenever the last
attempt reached its publish and got a response. -/
theorem publish_rejects_other_status {σ : Type} (w : World σ) (t : Client) (tr0 : σ)
    (hostName imageName oldTag newTag : String) :
    (∀ (s : St σ) (username password tag : String) (manifest : Bytes) (mediaType : String)
        (resp : Response) (t1 : σ),
        w.newRequestErr "PUT" (manifestURL hostName imageName tag) = none →
        w.roundTrip s.transport
          (pushRequest username password (manifestURL hostName imageName tag)
            manifest mediaType) = (.response resp, t1) →
        resp.StatusCode ≠ 201 →
        (pushManifest w s username password hostName imageName tag manifest mediaType).1 =
            .returned (some (.errorsNew resp.Status)) ∧
          (GoError.errorsNew resp.Status).Error = resp.Status) ∧
      ((∀ tr req resp, req.Method = "PUT" → (w.roundTrip tr req).1 = .response resp →
          resp.StatusCode ≠ 201) →
        ∃ e, (TagImage w t (St.init tr0) hostName imageName oldTag newTag).1 =
            .returned (some e) ∧
          ∀ x resp,
            (TagImage w t (St.init tr0) hostName imageName oldTag newTag).2.log.getLast? =
              some x →
            x.req.Method = "PUT" → x.res = .response resp → e = .errorsNew resp.Status) := by
  constructor
  · intro s username password tag manifest mediaType resp t1 hnew hdo hcode
    rw [pushManifest_response w s _ _ _ _ _ _ _ resp t1 hnew hdo]
    simp [hcode, GoError.Error]
  · intro hput
    cases hurl : w.newRequestErr "GET" (manifestURL hostName imageName oldTag) with
    | some e0 =>
      have step : ∀ s : St σ, tagAttempt w t hostName imageName oldTag newTag s =
          (.returned (some (.newRequest e0)), s) := fun s =>
        tagAttempt_of_fetch_error w t s s _ _ _ _ none "" (.newRequest e0)
          (pullManifest_newRequest_failed w s _ _ _ _ _ e0 hurl)
      rw [TagImage_of_three_failures w t _ _ _ _ _ _ _ _ _ _ _ (step _) (step _) (step _)]
      refine ⟨_, rfl, ?_⟩
      intro x resp hx
      simp [St.init] at hx
    | none =>
      obtain ⟨e1, s1, _, h1, _, _⟩ :=
        tagAttempt_without_created w t (St.init tr0) hostName imageName oldTag newTag hurl hput
      obtain ⟨e2, s2, _, h2, _, _⟩ :=
        tagAttempt_without_created w t s1 hostName imageName oldTag newTag hurl hput
      obtain ⟨e3, s3, x3, h3, hlast, hx3⟩ :=
        tagAttempt_without_created w t s2 hostName imageName oldTag newTag hurl hput
      rw [TagImage_of_three_failures w t _ _ _ _ _ _ _ _ _ _ _ h1 h2 h3]
      refine ⟨e3, rfl, ?_⟩
      intro x resp hx hm hres
      simp only [hlast, Option.some.injEq] at hx
      subst hx
      exact hx3 hm resp hres

/-- C7 at a concrete registry that answers every PUT with `403 Forbidden`:
the publish returns the error with that text, and so does `TagImage`. -/
theorem publish_rejects_other_status_witness :
    (pushManifest forbiddenWorld (St.init ()) "admin" "secret" "registry.local" "app" "v2"
        demoBody "m").1 = .returned (some (.errorsNew "403 Forbidden")) ∧
      (TagImage forbiddenWorld demoClient (St.init ())
        "registry.local" "app" "v1" "v2").1 = .returned (some (.errorsNew "403 Forbidden")) := by
  have h := publish_rejects_other_status forbiddenWorld demoClient ()
    "registry.local" "app" "v1" "v2"
  refine ⟨(h.1 (St.init ()) "admin" "secret" "v2" demoBody "m"
    ⟨403, "403 Forbidden", [], none⟩ () rfl rfl (by decide)).1, ?_⟩
  obtain ⟨e, he, hlast⟩ := h.2 (by
    intro tr req resp hreq hres
    have hne : req.Method ≠ "GET" := by rw [hreq]; decide
    simp only [forbiddenWorld, fixedWorld, hne, if_false, demoResponse,
      DoResult.response.injEq] at hres
    rw [← hres]
    decide)
  rw [he, hlast forbiddenPublish ⟨403, "403 Forbidden", [], none⟩ rfl rfl rfl]

end Registry
